import Mathlib

/-!
Verification of the document-analytics work-distribution and topic-aggregation
core (worker_queue.py, topic_aggregator.py, doc_analytics_lib/__init__.py).

Strings handled character-by-character by the Python code are embedded as
`List Char`; opaque identifiers (document paths, worker ids, urls) stay as
Lean `String`.  Log statements have no effect on state and are omitted.
-/

namespace DocAnalytics

/-- Python's notion of a whitespace character, as used by `str.rstrip()` and
no-argument `str.split()` (Py_UNICODE_ISSPACE): ASCII whitespace, the C1
separators, NEL, NBSP and the Unicode space separators. -/
def pyIsSpace (c : Char) : Bool :=
  let n := c.toNat
  (9 ≤ n && n ≤ 13) || n = 32 || (28 ≤ n && n ≤ 31) || n = 0x85 || n = 0xa0 ||
  n = 0x1680 || (0x2000 ≤ n && n ≤ 0x200a) || n = 0x2028 || n = 0x2029 ||
  n = 0x202f || n = 0x205f || n = 0x3000

/-- Python `content.rstrip()`: remove all trailing whitespace characters. -/
def pyRstrip (l : List Char) : List Char :=
  (l.reverse.dropWhile pyIsSpace).reverse

/-- Python `str.split(sep)` for a one-character separator: splitting the empty
string gives `[""]`, and a string containing `k` separators yields `k + 1`
(possibly empty) parts. -/
def pySplit (sep : Char) : List Char → List (List Char)
  | [] => [[]]
  | c :: cs =>
    if c = sep then [] :: pySplit sep cs
    else
      match pySplit sep cs with
      | [] => [[c]]
      | h :: t => (c :: h) :: t

/-- Python no-argument `str.split()`: maximal runs of non-whitespace
characters; leading, trailing and repeated whitespace produce no empty
tokens, so `"".split()` and `"   ".split()` are both `[]`. -/
def pySplitWs : List Char → List (List Char)
  | [] => []
  | c :: cs =>
    if pyIsSpace c then pySplitWs cs
    else
      match cs with
      | [] => [[c]]
      | d :: _ =>
        if pyIsSpace d then [c] :: pySplitWs cs
        else
          match pySplitWs cs with
          | [] => [[c]]
          | h :: t => (c :: h) :: t

/-- Result dictionary of `analyze_content`. -/
structure ContentMetrics where
  line_count : Nat
  word_count : Nat
  char_count : Nat
deriving DecidableEq, Repr

/-- `doc_analytics_lib.analyze_content`: empty content short-circuits to all
zeroes; otherwise the content is right-stripped, split on newlines, and lines,
whitespace-delimited words and per-line characters are counted. -/
def analyze_content (content : List Char) : ContentMetrics :=
  if content = [] then
    { line_count := 0, word_count := 0, char_count := 0 }
  else
    let lines := pySplit '\n' (pyRstrip content)
    { line_count := lines.length
      word_count := (lines.map (fun l => (pySplitWs l).length)).sum
      char_count := (lines.map List.length).sum }

/-- State of one `TopicAggregator` instance: the subscribed topic and the four
running metric counters, all starting at zero. -/
structure AggState where
  topic : String
  line_count : Nat
  word_count : Nat
  char_count : Nat
  doc_count : Nat
deriving DecidableEq, Repr

/-- `TopicAggregator.__init__`: all counters start at zero. -/
def AggState.init (topic : String) : AggState :=
  { topic := topic, line_count := 0, word_count := 0, char_count := 0, doc_count := 0 }

/-- `TopicAggregator.process_content`: analyze the content and add the three
analysis counts into the running totals; `doc_count` increments by one
unconditionally. -/
def process_content (s : AggState) (content : List Char) : AggState :=
  let metrics := analyze_content content
  { s with
    line_count := s.line_count + metrics.line_count
    word_count := s.word_count + metrics.word_count
    char_count := s.char_count + metrics.char_count
    doc_count := s.doc_count + 1 }

/-- The snapshot dictionary returned by `TopicAggregator.get_metrics`. -/
structure TopicMetrics where
  topic : String
  line_count : Nat
  word_count : Nat
  char_count : Nat
  doc_count : Nat
deriving DecidableEq, Repr

/-- `TopicAggregator.get_metrics`: build the snapshot from the current
counters; the method performs no assignment, so the state component of the
result is the input state unchanged. -/
def get_metrics (s : AggState) : TopicMetrics × AggState :=
  ({ topic := s.topic
     line_count := s.line_count
     word_count := s.word_count
     char_count := s.char_count
     doc_count := s.doc_count }, s)

/-- The operations a `TopicAggregator` exposes on its state (its receive loop
dispatches only to these two; the class has no reset operation). -/
inductive AggOp where
  | process (content : List Char)
  | getMetrics
deriving Repr

/-- Effect of one aggregator operation on the aggregator state. -/
def applyAggOp (s : AggState) : AggOp → AggState
  | .process content => process_content s content
  | .getMetrics => (get_metrics s).2

/-- A registered worker as stored in `WorkerQueue.workers`: the dictionary
`{"id": ..., "url": ...}` built by `register_worker`. -/
structure Worker where
  id : String
  url : String
deriving DecidableEq, Repr

/-- State of the `WorkerQueue`: pending document paths and registered
workers, both starting empty. -/
structure WorkerQueue where
  documents : List String
  workers : List Worker
deriving DecidableEq, Repr

/-- `WorkerQueue.__init__`. -/
def WorkerQueue.init : WorkerQueue :=
  { documents := [], workers := [] }

/-- A JSON-style status dictionary as returned by the registration methods and
`distribute_work`.  Absent dictionary keys are `none`: the code's three
return sites of `distribute_work` carry different key sets. -/
structure StatusDict where
  status : String
  message : Option String
  processed : Option Nat
  errors : Option Nat
deriving DecidableEq, Repr

/-- `WorkerQueue.register_documents`: replaces the pending list wholesale
(the path-inspection loop only logs) and acknowledges success. -/
def register_documents (q : WorkerQueue) (docs : List String) : WorkerQueue × StatusDict :=
  ({ q with documents := docs },
   { status := "success", message := none, processed := none, errors := none })

/-- The registration payload for `register_worker`: a dictionary with an `id`
and optionally a `url` and/or an `address` key. -/
structure WorkerPayload where
  id : String
  url : Option String
  address : Option String
deriving DecidableEq, Repr

/-- Python `zmq_address.replace('tcp://', '')`: remove every (left-to-right,
non-overlapping) occurrence of `"tcp://"`. -/
def dropTcpMarks : List Char → List Char
  | 't' :: 'c' :: 'p' :: ':' :: '/' :: '/' :: rest => dropTcpMarks rest
  | c :: cs => c :: dropTcpMarks cs
  | [] => []

/-- The `address`-to-`url` conversion of `register_worker`: an address
starting with `tcp://` whose remainder splits on `:` into exactly two parts
becomes `http://host:5555`; any other `tcp://` address keeps its stripped
remainder behind `http://`; a non-tcp address is used verbatim. -/
def convertAddress (zmq : List Char) : List Char :=
  if "tcp://".toList.isPrefixOf zmq then
    match pySplit ':' (dropTcpMarks zmq) with
    | [host, _] => "http://".toList ++ host ++ ":5555".toList
    | _ => "http://".toList ++ dropTcpMarks zmq
  else zmq

/-- `WorkerQueue.register_worker`: a `url` key is taken as is; otherwise an
`address` key is converted by `convertAddress`; with neither key the method
returns an error dictionary and appends nothing. -/
def register_worker (q : WorkerQueue) (w : WorkerPayload) : WorkerQueue × StatusDict :=
  match w.url with
  | some u =>
    ({ q with workers := q.workers ++ [{ id := w.id, url := u }] },
     { status := "success", message := none, processed := none, errors := none })
  | none =>
    match w.address with
    | some zmq =>
      let worker_url := String.mk (convertAddress zmq.toList)
      ({ q with workers := q.workers ++ [{ id := w.id, url := worker_url }] },
       { status := "success", message := none, processed := none, errors := none })
    | none =>
      (q, { status := "error", message := some "Worker data missing url or address",
            processed := none, errors := none })

/-- `WorkerQueue.pick_idle_worker`, with the call to `random.choice` made
explicit: `r` is the random draw, and `random.choice` maps a draw that is
uniform on `{0, ..., n-1}` to the entry at that index.  Taking `r` modulo the
length keeps the function total over `Nat` draws without changing the image
of the uniform draws. -/
def pick_idle_worker (workers : List Worker) (r : Nat) : Option Worker :=
  if workers.isEmpty then none
  else workers[r % workers.length]?

/-- Outcome of one HTTP worker call as observed by `distribute_work`:
a well-formed JSON reply (with its HTTP status and whether the body's
`status` field equals `"success"`), a reply whose body fails to parse as
JSON, or a transport-level exception (connection error or timeout raised by
`requests.post`). -/
inductive WorkerResponse where
  | reply (httpStatus : Nat) (bodySuccess : Bool)
  | malformed (httpStatus : Nat)
  | exn
deriving DecidableEq, Repr

/-- Classification of one worker call in the body of the distribution loop:
`true` increments `processed_count`, `false` increments `error_count`.  A
transport exception and a malformed 200-reply land in the `except` branch; a
non-200 reply and a 200-reply whose body status is not `"success"` land in
the corresponding `else` branches.  Every branch continues the loop. -/
def countsAsProcessed : WorkerResponse → Bool
  | .exn => false
  | .malformed _ => false
  | .reply s b => if s = 200 then b else false

/-- The `for doc_index, document in enumerate(self.documents)` loop of
`distribute_work`: for each document a worker is picked with the draw for
that index and invoked once, the response for that invocation is classified,
and the loop continues with the next document.  Returns the processed count,
the error count, and the trace of worker invocations `(worker, document)` in
the order they were sent.  If `pick_idle_worker` returns `None` the loop
breaks, keeping the counts accumulated so far. -/
def distLoop (workers : List Worker) (draw : Nat → Nat)
    (respond : Nat → WorkerResponse) : List String → Nat → Nat × Nat × List (Worker × String)
  | [], _ => (0, 0, [])
  | d :: ds, i =>
    match pick_idle_worker workers (draw i) with
    | none => (0, 0, [])
    | some w =>
      let rest := distLoop workers draw respond ds (i + 1)
      if countsAsProcessed (respond i) then
        (rest.1 + 1, rest.2.1, (w, d) :: rest.2.2)
      else
        (rest.1, rest.2.1 + 1, (w, d) :: rest.2.2)

/-- `WorkerQueue.distribute_work`, together with the trace of worker
invocations it performs.  `draw` supplies the random draw consumed by the
`pick_idle_worker` call for each document index, and `respond` the outcome of
the HTTP call for each document index.  With no pending documents the method
returns `{"status": "completed", "processed": 0}` (no `errors` key); with
documents but no workers it returns the `"No workers available"` error
dictionary; otherwise it runs the loop and returns `{"status": "completed",
"processed": p, "errors": e}`.  The method never raises. -/
def distribute_work (q : WorkerQueue) (draw : Nat → Nat)
    (respond : Nat → WorkerResponse) : StatusDict × List (Worker × String) :=
  if q.documents.isEmpty then
    ({ status := "completed", message := none, processed := some 0, errors := none }, [])
  else if q.workers.isEmpty then
    ({ status := "error", message := some "No workers available",
       processed := none, errors := none }, [])
  else
    let r := distLoop q.workers draw respond q.documents 0
    ({ status := "completed", message := none, processed := some r.1, errors := some r.2.1 },
     r.2.2)

/-- Number of invocation indices in `i, i+1, ..., i+n-1` whose response is
classified as processed. -/
def successCount (respond : Nat → WorkerResponse) : Nat → Nat → Nat
  | _, 0 => 0
  | i, n + 1 => successCount respond (i + 1) n + (if countsAsProcessed (respond i) then 1 else 0)

/-- Number of invocation indices in `i, i+1, ..., i+n-1` whose response is
classified as an error. -/
def failCount (respond : Nat → WorkerResponse) : Nat → Nat → Nat
  | _, 0 => 0
  | i, n + 1 => failCount respond (i + 1) n + (if countsAsProcessed (respond i) then 0 else 1)

/-- The sample content of the acceptance suite, with real newline
characters. -/
def sampleContent : List Char := "Line 1\nLine 2\nLine 3 with more words".toList

lemma pySplit_ne_nil (sep : Char) (l : List Char) : pySplit sep l ≠ [] := by
  cases l with
  | nil => simp [pySplit]
  | cons c cs =>
    simp only [pySplit]
    split
    · simp
    · split <;> simp

lemma pyRstrip_of_all_space {l : List Char} (h : ∀ c ∈ l, pyIsSpace c) :
    pyRstrip l = [] := by
  have : l.reverse.dropWhile pyIsSpace = [] := by
    rw [List.dropWhile_eq_nil_iff]
    intro c hc
    exact h c (List.mem_reverse.mp hc)
  simp [pyRstrip, this]

/-- C4: on the sample content `"Line 1\nLine 2\nLine 3 with more words"`,
`process_content` adds exactly 3 lines, 9 words, 34 characters and 1
document to any prior counters, and applying it twice from a fresh all-zero
aggregator yields the doubled totals 6, 18, 68 and 2. -/
theorem c4_sample_content_counts :
    (∀ s : AggState,
      process_content s sampleContent =
        { s with line_count := s.line_count + 3, word_count := s.word_count + 9,
                 char_count := s.char_count + 34, doc_count := s.doc_count + 1 }) ∧
    (∀ t : String,
      process_content (process_content (AggState.init t) sampleContent) sampleContent =
        { topic := t, line_count := 6, word_count := 18, char_count := 68, doc_count := 2 }) := by
  have h : analyze_content sampleContent =
      { line_count := 3, word_count := 9, char_count := 34 } := by decide
  constructor
  · intro s
    simp [process_content, h]
  · intro t
    simp [process_content, h, AggState.init]

/-- C5: `process_content` on the empty string increments `doc_count` by one
and leaves the line, word and character counters unchanged, from any prior
aggregator state. -/
theorem c5_empty_content_doc_only :
    ∀ s : AggState, process_content s [] = { s with doc_count := s.doc_count + 1 } := by
  intro s
  simp [process_content, analyze_content]

/-- C8: every aggregator operation (the only operations are `process_content`
and `get_metrics`; there is no reset) leaves each of the four counters
greater than or equal to its previous value, and `get_metrics` leaves the
state exactly unchanged. -/
theorem c8_counters_monotone :
    ∀ s : AggState,
      (∀ op : AggOp,
        s.line_count ≤ (applyAggOp s op).line_count ∧
        s.word_count ≤ (applyAggOp s op).word_count ∧
        s.char_count ≤ (applyAggOp s op).char_count ∧
        s.doc_count ≤ (applyAggOp s op).doc_count) ∧
      applyAggOp s AggOp.getMetrics = s := by
  intro s
  refine ⟨fun op => ?_, rfl⟩
  cases op with
  | process content =>
    exact ⟨Nat.le_add_right _ _, Nat.le_add_right _ _, Nat.le_add_right _ _,
           Nat.le_add_right _ _⟩
  | getMetrics =>
    exact ⟨Nat.le_refl _, Nat.le_refl _, Nat.le_refl _, Nat.le_refl _⟩

/-- C9: `get_metrics` is read-only and idempotent: it returns the input state
unchanged, and a second call on the resulting state returns the identical
snapshot. -/
theorem c9_get_metrics_idempotent :
    ∀ s : AggState,
      (get_metrics s).2 = s ∧
      (get_metrics ((get_metrics s).2)).1 = (get_metrics s).1 := by
  intro s
  exact ⟨rfl, rfl⟩

/-- C10: any non-empty content consisting only of whitespace characters
analyzes to one line, zero words and zero characters, so `process_content`
on it adds exactly one line and one document; and the analysis reports zero
lines exactly for the literally empty string. -/
theorem c10_whitespace_only_content :
    (∀ content : List Char, content ≠ [] → (∀ c ∈ content, pyIsSpace c) →
      analyze_content content = { line_count := 1, word_count := 0, char_count := 0 } ∧
      ∀ s : AggState,
        process_content s content =
          { s with line_count := s.line_count + 1, doc_count := s.doc_count + 1 }) ∧
    (∀ content : List Char, (analyze_content content).line_count = 0 ↔ content = []) := by
  constructor
  · intro content hne hsp
    have hr : pyRstrip content = [] := pyRstrip_of_all_space hsp
    have ha : analyze_content content =
        { line_count := 1, word_count := 0, char_count := 0 } := by
      simp [analyze_content, hne, hr, pySplit, pySplitWs]
    refine ⟨ha, fun s => ?_⟩
    simp [process_content, ha]
  · intro content
    constructor
    · intro h
      by_contra hne
      have := pySplit_ne_nil '\n' (pyRstrip content)
      simp [analyze_content, hne] at h
      exact this h
    · intro h
      subst h
      simp [analyze_content]

/-- Witness for C10 at the concrete whitespace-only content `"\n"`. -/
theorem c10_whitespace_only_content_witness :
    analyze_content ['\n'] = { line_count := 1, word_count := 0, char_count := 0 } :=
  (c10_whitespace_only_content.1 ['\n'] (by decide) (by decide)).1

lemma pick_idle_worker_of_ne_nil {workers : List Worker} (h : workers ≠ []) (r : Nat) :
    ∃ w, pick_idle_worker workers r = some w ∧ w ∈ workers := by
  have hlen : 0 < workers.length := List.length_pos.mpr h
  have hlt : r % workers.length < workers.length := Nat.mod_lt _ hlen
  refine ⟨workers[r % workers.length], ?_, List.getElem_mem hlt⟩
  simp [pick_idle_worker, List.isEmpty_eq_false.mpr h, List.getElem?_eq_getElem hlt]

lemma distLoop_spec {workers : List Worker} (h : workers ≠ []) (draw : Nat → Nat)
    (respond : Nat → WorkerResponse) :
    ∀ (docs : List String) (i : Nat),
      (distLoop workers draw respond docs i).1 = successCount respond i docs.length ∧
      (distLoop workers draw respond docs i).2.1 = failCount respond i docs.length ∧
      (distLoop workers draw respond docs i).2.2.map Prod.snd = docs := by
  intro docs
  induction docs with
  | nil => intro i; simp [distLoop, successCount, failCount]
  | cons d ds ih =>
    intro i
    obtain ⟨w, hw, _⟩ := pick_idle_worker_of_ne_nil h (draw i)
    have h1 := ih (i + 1)
    simp only [distLoop, hw, List.length_cons, successCount, failCount]
    by_cases hc : countsAsProcessed (respond i) <;>
      simp [hc, h1.1, h1.2.1, h1.2.2]

lemma successCount_add_failCount (respond : Nat → WorkerResponse) :
    ∀ (n i : Nat), successCount respond i n + failCount respond i n = n := by
  intro n
  induction n with
  | zero => intro i; simp [successCount, failCount]
  | succ n ih =>
    intro i
    have h1 := ih (i + 1)
    simp only [successCount, failCount]
    by_cases hc : countsAsProcessed (respond i) <;> simp [hc] <;> omega

/-- C1 (amended to non-empty pending sets): with a non-empty roster and a
non-empty pending list of N documents, `distribute_work` performs exactly
one worker invocation per document, in registration order, and returns
`{"status": "completed"}` with `processed` the number of success-classified
responses and `errors` the number of failure-classified responses, summing
to N; no failure aborts the pass or requeues its document. -/
theorem c1_nonempty_pass_counts (docs : List String) (workers : List Worker)
    (draw : Nat → Nat) (respond : Nat → WorkerResponse)
    (hd : docs ≠ []) (hw : workers ≠ []) :
    (distribute_work { documents := docs, workers := workers } draw respond).2.length =
      docs.length ∧
    (distribute_work { documents := docs, workers := workers } draw respond).2.map
      Prod.snd = docs ∧
    (distribute_work { documents := docs, workers := workers } draw respond).1 =
      { status := "completed", message := none,
        processed := some (successCount respond 0 docs.length),
        errors := some (failCount respond 0 docs.length) } ∧
    successCount respond 0 docs.length + failCount respond 0 docs.length = docs.length := by
  have hde : docs.isEmpty = false := List.isEmpty_eq_false.mpr hd
  have hwe : workers.isEmpty = false := List.isEmpty_eq_false.mpr hw
  have hs := distLoop_spec hw draw respond docs 0
  have hlen : (distLoop workers draw respond docs 0).2.2.length = docs.length := by
    have := congrArg List.length hs.2.2
    simpa using this
  simp only [distribute_work, hde, hwe, Bool.false_eq_true, if_false]
  exact ⟨hlen, hs.2.2, by rw [hs.1, hs.2.1], successCount_add_failCount respond _ 0⟩

/-- Witness for C1 at the acceptance scenario: two documents, one worker,
first call succeeds, second call returns an error response. -/
theorem c1_nonempty_pass_counts_witness :
    (distribute_work { documents := ["d1", "d2"], workers := [{ id := "w1", url := "u" }] }
        (fun _ => 0)
        (fun i => if i = 0 then WorkerResponse.reply 200 true
                  else WorkerResponse.reply 200 false)).1 =
      { status := "completed", message := none,
        processed := some (successCount
          (fun i => if i = 0 then WorkerResponse.reply 200 true
                    else WorkerResponse.reply 200 false) 0 2),
        errors := some (failCount
          (fun i => if i = 0 then WorkerResponse.reply 200 true
                    else WorkerResponse.reply 200 false) 0 2) } :=
  (c1_nonempty_pass_counts ["d1", "d2"] [{ id := "w1", url := "u" }] (fun _ => 0)
    (fun i => if i = 0 then WorkerResponse.reply 200 true
              else WorkerResponse.reply 200 false)
    (by decide) (by decide)).2.2.1

/-- Counterexample to C1 as stated: with a non-empty roster and an empty
pending set (N = 0), the returned dictionary has no `errors` key at all, so
no `processed_count + error_count == 0` reading of it holds. -/
theorem c1_empty_pending_lacks_error_count :
    ¬ ∃ p e : Nat,
      (distribute_work { documents := [], workers := [{ id := "w1", url := "u" }] }
        (fun _ => 0) (fun _ => WorkerResponse.exn)).1.processed = some p ∧
      (distribute_work { documents := [], workers := [{ id := "w1", url := "u" }] }
        (fun _ => 0) (fun _ => WorkerResponse.exn)).1.errors = some e ∧
      p + e = 0 := by
  rintro ⟨p, e, -, he, -⟩
  simp [distribute_work] at he

/-- C2 (amended): on an empty pending set `distribute_work` immediately
returns `{"status": "completed", "processed": 0}` — with no `errors` key —
and contacts no worker, for every roster including the empty one. -/
theorem c2_empty_pending_result :
    ∀ (workers : List Worker) (draw : Nat → Nat) (respond : Nat → WorkerResponse),
      distribute_work { documents := [], workers := workers } draw respond =
        ({ status := "completed", message := none, processed := some 0, errors := none },
         []) := by
  intro workers draw respond
  rfl

/-- Counterexample to C2 as stated: on an empty pending set the returned
dictionary does not carry `error_count: 0` — the `errors` key is absent. -/
theorem c2_empty_pending_no_errors_key :
    ¬ ((distribute_work { documents := [], workers := [] } (fun _ => 0)
          (fun _ => WorkerResponse.exn)).1.processed = some 0 ∧
       (distribute_work { documents := [], workers := [] } (fun _ => 0)
          (fun _ => WorkerResponse.exn)).1.errors = some 0) := by
  decide

/-- C3: on a non-empty pending set with an empty roster, `distribute_work`
returns the `"No workers available"` error dictionary as an ordinary return
value (the method raises nothing), contacts no worker (empty invocation
trace), and carries no processed or error counts; its status distinguishes
it from every completed outcome. -/
theorem c3_no_workers_error :
    ∀ (d : String) (ds : List String) (draw : Nat → Nat)
      (respond : Nat → WorkerResponse),
      distribute_work { documents := d :: ds, workers := [] } draw respond =
        ({ status := "error", message := some "No workers available",
           processed := none, errors := none }, []) ∧
      (distribute_work { documents := d :: ds, workers := [] } draw respond).1.status ≠
        "completed" := by
  intro d ds draw respond
  refine ⟨rfl, ?_⟩
  show ("error" : String) ≠ "completed"
  decide

/-- C6 (amended): `register_worker` succeeds and appends exactly one worker
for every payload carrying a `url` or an `address` key — duplicate endpoints
included, since the roster is a plain list — while a payload with neither
key is answered with an error and appends nothing. -/
theorem c6_register_worker_appends (q : WorkerQueue) (w : WorkerPayload)
    (h : w.url ≠ none ∨ w.address ≠ none) :
    ∃ nw : Worker,
      (register_worker q w).1 = { q with workers := q.workers ++ [nw] } ∧
      (register_worker q w).2.status = "success" := by
  rcases w with ⟨id, url, addr⟩
  cases url with
  | some u => exact ⟨{ id := id, url := u }, rfl, rfl⟩
  | none =>
    cases addr with
    | some a => exact ⟨{ id := id, url := String.mk (convertAddress a.toList) }, rfl, rfl⟩
    | none => simp at h

/-- Witness for C6 at a payload whose url duplicates an already-registered
endpoint. -/
theorem c6_register_worker_appends_witness :
    ∃ nw : Worker,
      (register_worker { documents := [], workers := [{ id := "w1", url := "u" }] }
          { id := "w2", url := some "u", address := none }).1 =
        { documents := [], workers := [{ id := "w1", url := "u" }] ++ [nw] } ∧
      (register_worker { documents := [], workers := [{ id := "w1", url := "u" }] }
          { id := "w2", url := some "u", address := none }).2.status = "success" :=
  c6_register_worker_appends
    { documents := [], workers := [{ id := "w1", url := "u" }] }
    { id := "w2", url := some "u", address := none }
    (Or.inl (by decide))

/-- Counterexample to C6 as stated: a payload with neither a `url` nor an
`address` key is not acknowledged with success and nothing is appended. -/
theorem c6_missing_endpoint_rejected :
    (register_worker WorkerQueue.init
      { id := "w1", url := none, address := none }).2.status ≠ "success" ∧
    (register_worker WorkerQueue.init
      { id := "w1", url := none, address := none }).1.workers = [] := by
  decide

lemma countP_range_getElem {α : Type} [DecidableEq α] (l : List α) (w : α) :
    (List.range l.length).countP (fun r => decide (l[r]? = some w)) =
      l.countP (fun x => decide (x = w)) := by
  induction l with
  | nil => simp
  | cons a t ih =>
    rw [List.length_cons, List.range_succ_eq_map, List.countP_cons, List.countP_map,
      List.countP_cons]
    simp only [Function.comp_def, Nat.succ_eq_add_one, List.getElem?_cons_succ,
      List.getElem?_cons_zero, Option.some.injEq]
    rw [ih]

/-- C7: `pick_idle_worker` returns `None` exactly when the roster is empty;
on a non-empty roster it returns a roster member, the draw-to-entry map is
plain indexing on the draws `0, ..., n-1` that a uniform `random.choice`
uses, and consequently each worker value is selected by exactly as many of
those draws as it has entries in the roster — a uniform per-call draw thus
selects every registered entry equally often, with replacement, and each
call depends only on its own draw. -/
theorem c7_pick_idle_worker_uniform :
    ∀ workers : List Worker,
      (∀ r : Nat, pick_idle_worker workers r = none ↔ workers = []) ∧
      (workers ≠ [] → ∀ r : Nat, ∃ w, pick_idle_worker workers r = some w ∧ w ∈ workers) ∧
      (∀ i : Nat, i < workers.length → pick_idle_worker workers i = workers[i]?) ∧
      (∀ w : Worker,
        (List.range workers.length).countP
            (fun r => decide (pick_idle_worker workers r = some w)) =
          workers.countP (fun x => decide (x = w))) := by
  intro workers
  refine ⟨fun r => ?_, fun h r => pick_idle_worker_of_ne_nil h r, fun i hi => ?_, fun w => ?_⟩
  · constructor
    · intro hnone
      by_contra hne
      obtain ⟨v, hv, -⟩ := pick_idle_worker_of_ne_nil hne r
      rw [hnone] at hv
      cases hv
    · intro h
      subst h
      simp [pick_idle_worker]
  · have hmod : i % workers.length = i := Nat.mod_eq_of_lt hi
    have hne : workers ≠ [] := by
      intro h
      subst h
      simp at hi
    simp [pick_idle_worker, List.isEmpty_eq_false.mpr hne, hmod]
  · rw [← countP_range_getElem workers w]
    refine List.countP_congr fun r hr => ?_
    have hrlt : r < workers.length := List.mem_range.mp hr
    have hne : workers ≠ [] := by
      intro h
      subst h
      simp at hrlt
    simp [pick_idle_worker, List.isEmpty_eq_false.mpr hne, Nat.mod_eq_of_lt hrlt]

/-- Witness for C7: on a concrete two-worker roster, draw 1 selects the
second registered entry. -/
theorem c7_pick_idle_worker_uniform_witness :
    pick_idle_worker [{ id := "a", url := "x" }, { id := "b", url := "y" }] 1 =
      [({ id := "a", url := "x" } : Worker), { id := "b", url := "y" }][1]? :=
  (c7_pick_idle_worker_uniform
    [{ id := "a", url := "x" }, { id := "b", url := "y" }]).2.2.1 1 (by decide)

end DocAnalytics
